import Mathlib

/-!
Shallow embedding of the grade-dashboard program (`ai-dashboard.py`).

The program has two pieces of logic:

* `load_grade_data` reads a file and parses it as JSON.  The filesystem is
  modelled as a partial map from paths to contents, and the JSON parser as a
  partial parsing function; the Python `open` call raises `FileNotFoundError`
  exactly when the path is absent, and `json.load` raises `JSONDecodeError`
  exactly when the contents do not parse.

* `render_average_chart` computes, for each subject of the record, the
  arithmetic mean of its scores, then an overall value
  (`sum(averages) / len(averages) if averages else 0`), appends the synthetic
  bar `"Samlet gennemsnit"`, and hands the label/value series to the chart
  renderer.  Python's numeric division is embedded into `ℚ`; the
  `ZeroDivisionError` raised on an empty subject is made explicit as an
  `Except` error.  The GUI and chart-drawing calls have no bearing on the
  label/value series and are not modelled.
-/

namespace Dashboard

/-- A grade record: `{ student, subjects }` where `subjects` maps subject
names to mappings from assessment labels to scores.  Python dicts iterate in
insertion order, so both mappings are embedded as association lists. -/
structure GradeRecord where
  student : String
  subjects : List (String × List (String × ℚ))
deriving DecidableEq

/-- The arithmetic error the aggregation loop can raise
(Python `ZeroDivisionError`). -/
inductive AggError where
  | zeroDivision
deriving DecidableEq

/-- `grades.values()`: the list of scores of one subject, in insertion
order. -/
def scores (grades : List (String × ℚ)) : List ℚ :=
  grades.map Prod.snd

/-- Arithmetic mean of a list of rationals, `sum / length`. -/
def mean (l : List ℚ) : ℚ :=
  l.sum / (l.length : ℚ)

/-- The mutable state of `render_average_chart` while its `for` loop runs:
the input record plus the two accumulator lists `subjects` and
`averages`. -/
structure ChartState where
  record : GradeRecord
  subjects : List String
  averages : List ℚ
deriving DecidableEq

/-- The `for subject, grades in data["subjects"].items()` loop of
`render_average_chart`: append the subject name, then compute
`sum(grades.values()) / len(grades)`, raising `ZeroDivisionError` when
`len(grades)` is `0`. -/
def chartLoop : List (String × List (String × ℚ)) → ChartState → Except AggError ChartState
  | [], s => .ok s
  | (subject, grades) :: rest, s =>
    let s1 : ChartState := { s with subjects := s.subjects ++ [subject] }
    if grades.length = 0 then
      .error .zeroDivision
    else
      chartLoop rest
        { s1 with averages := s1.averages ++ [(scores grades).sum / (grades.length : ℚ)] }

/-- The data part of `render_average_chart`: runs the per-subject loop, then
`overall_average = sum(averages) / len(averages) if averages else 0`, appends
the `"Samlet gennemsnit"` bar, and returns the label/value series passed to
`ax.bar` (the `zip` of the two lists, as the chart consumes them pairwise)
together with the final value of the input record. -/
def render_average_chart (data : GradeRecord) : Except AggError (List (String × ℚ) × GradeRecord) :=
  match chartLoop data.subjects ⟨data, [], []⟩ with
  | .error e => .error e
  | .ok s =>
    let overall_average : ℚ :=
      if s.averages ≠ [] then s.averages.sum / (s.averages.length : ℚ) else 0
    let subjects := s.subjects ++ ["Samlet gennemsnit"]
    let averages := s.averages ++ [overall_average]
    .ok (subjects.zip averages, s.record)

/-- The label/value series of `render_average_chart`, record dropped. -/
def chartData (data : GradeRecord) : Except AggError (List (String × ℚ)) :=
  (render_average_chart data).map Prod.fst

/-- The overall value computed by the source for a list of per-subject
averages: `sum(averages) / len(averages) if averages else 0`. -/
def overallValue (averages : List ℚ) : ℚ :=
  if averages ≠ [] then averages.sum / (averages.length : ℚ) else 0

/-- Minimum of a list of rationals (`0` on the empty list, which is never
used under the claims' hypotheses). -/
def listMin : List ℚ → ℚ
  | [] => 0
  | [x] => x
  | x :: y :: rest => min x (listMin (y :: rest))

/-- Maximum of a list of rationals (`0` on the empty list, which is never
used under the claims' hypotheses). -/
def listMax : List ℚ → ℚ
  | [] => 0
  | [x] => x
  | x :: y :: rest => max x (listMax (y :: rest))

/-- Errors of the loader. -/
inductive LoadError where
  | fileNotFound
  | parseError
deriving DecidableEq

/-- `load_grade_data`: `open(file_path)` raises `FileNotFoundError` when the
path is absent from the filesystem `fs`; otherwise `json.load` parses the
contents, raising `JSONDecodeError` (here `parseError`) when they are
malformed, and returns the parsed value otherwise. -/
def load_grade_data {α : Type} (fs : String → Option String) (parse : String → Option α)
    (file_path : String) : Except LoadError α :=
  match fs file_path with
  | none => .error .fileNotFound
  | some contents =>
    match parse contents with
    | none => .error .parseError
    | some v => .ok v

/-- State-passing form of the loader: it reads the filesystem and returns it
unchanged, since the Python code opens the file for reading only. -/
def load_grade_data_run {α : Type} (fs : String → Option String) (parse : String → Option α)
    (file_path : String) : Except LoadError α × (String → Option String) :=
  (load_grade_data fs parse file_path, fs)

/-- Zipping two maps over the same list pairs the images pointwise. -/
theorem zip_map_pair {α β γ : Type} (l : List α) (f : α → β) (g : α → γ) :
    (l.map f).zip (l.map g) = l.map fun x => (f x, g x) := by
  induction l with
  | nil => rfl
  | cons x xs ih => simp [ih]

/-- Zipping after appending one element to two equal-length lists. -/
theorem zip_snoc {α β : Type} (l₁ : List α) (l₂ : List β) (a : α) (b : β)
    (h : l₁.length = l₂.length) :
    (l₁ ++ [a]).zip (l₂ ++ [b]) = l₁.zip l₂ ++ [(a, b)] := by
  induction l₁ generalizing l₂ with
  | nil =>
    cases l₂ with
    | nil => rfl
    | cons y ys => simp at h
  | cons x xs ih =>
    cases l₂ with
    | nil => simp at h
    | cons y ys =>
      have h2 : xs.length = ys.length := by simpa using h
      simp [ih ys h2]

/-- On a block of subjects that all have at least one score, the loop
succeeds, appending each subject name and each mean in order; the record
component is untouched. -/
theorem chartLoop_ok (items : List (String × List (String × ℚ)))
    (h : ∀ p ∈ items, p.2 ≠ []) (s : ChartState) :
    chartLoop items s = .ok ⟨s.record, s.subjects ++ items.map Prod.fst,
      s.averages ++ items.map (fun p => mean (scores p.2))⟩ := by
  induction items generalizing s with
  | nil => simp [chartLoop]
  | cons head rest ih =>
    obtain ⟨subject, grades⟩ := head
    have hg : ¬grades.length = 0 := by
      simpa [List.length_eq_zero] using h (subject, grades) (by simp)
    simp only [chartLoop, if_neg hg]
    rw [ih (fun p hp => h p (by simp [hp]))]
    simp [mean, scores, List.append_assoc]

/-- If some subject in the block has no scores, the loop raises
`ZeroDivisionError`. -/
theorem chartLoop_error (items : List (String × List (String × ℚ)))
    (h : ∃ p ∈ items, p.2 = []) (s : ChartState) :
    chartLoop items s = .error .zeroDivision := by
  induction items generalizing s with
  | nil => simp at h
  | cons head rest ih =>
    obtain ⟨subject, grades⟩ := head
    by_cases hg : grades.length = 0
    · simp [chartLoop, hg]
    · have hrest : ∃ p ∈ rest, p.2 = [] := by
        obtain ⟨p, hp, hpe⟩ := h
        rcases List.mem_cons.mp hp with rfl | hmem
        · simp only at hpe
          simp [hpe] at hg
        · exact ⟨p, hmem, hpe⟩
      simp only [chartLoop, if_neg hg]
      exact ih hrest _

/-- The loop never changes the record component of the state. -/
theorem chartLoop_record (items : List (String × List (String × ℚ))) (s s2 : ChartState)
    (h : chartLoop items s = .ok s2) : s2.record = s.record := by
  induction items generalizing s with
  | nil =>
    simp only [chartLoop, Except.ok.injEq] at h
    rw [← h]
  | cons head rest ih =>
    obtain ⟨subject, grades⟩ := head
    by_cases hg : grades.length = 0
    · simp [chartLoop, hg] at h
    · simp only [chartLoop, if_neg hg] at h
      have h3 := ih _ h
      exact h3

/-- `render_average_chart` on a record whose subjects all have at least one
score: one `(name, mean)` pair per subject in order, then the synthetic
`"Samlet gennemsnit"` pair carrying `overallValue` of the per-subject means,
and the record comes back unchanged. -/
theorem render_average_chart_ok (r : GradeRecord) (h : ∀ p ∈ r.subjects, p.2 ≠ []) :
    render_average_chart r = .ok
      (r.subjects.map (fun p => (p.1, mean (scores p.2))) ++
        [("Samlet gennemsnit", overallValue (r.subjects.map fun p => mean (scores p.2)))], r) := by
  unfold render_average_chart
  rw [chartLoop_ok r.subjects h ⟨r, [], []⟩]
  simp only [List.nil_append]
  rw [zip_snoc _ _ _ _ (by simp)]
  rw [zip_map_pair]
  simp [overallValue]

/-- Every element of a list is at most its `listMax`. -/
theorem le_listMax (l : List ℚ) : ∀ x ∈ l, x ≤ listMax l := by
  induction l with
  | nil => simp
  | cons x xs ih =>
    intro z hz
    rcases List.mem_cons.mp hz with rfl | hmem
    · cases xs with
      | nil => simp [listMax]
      | cons y ys =>
        simp only [listMax]
        exact le_max_left _ _
    · cases xs with
      | nil => simp at hmem
      | cons y ys =>
        simp only [listMax]
        exact le_max_of_le_right (ih z hmem)

/-- Every element of a list is at least its `listMin`. -/
theorem listMin_le (l : List ℚ) : ∀ x ∈ l, listMin l ≤ x := by
  induction l with
  | nil => simp
  | cons x xs ih =>
    intro z hz
    rcases List.mem_cons.mp hz with rfl | hmem
    · cases xs with
      | nil => simp [listMin]
      | cons y ys =>
        simp only [listMin]
        exact min_le_left _ _
    · cases xs with
      | nil => simp at hmem
      | cons y ys =>
        simp only [listMin]
        exact min_le_of_right_le (ih z hmem)

/-- A list bounded above pointwise has sum at most `length * bound`. -/
theorem sum_le_length_mul (l : List ℚ) (B : ℚ) (h : ∀ x ∈ l, x ≤ B) :
    l.sum ≤ (l.length : ℚ) * B := by
  induction l with
  | nil => simp
  | cons x xs ih =>
    simp only [List.sum_cons, List.length_cons]
    have h1 : x ≤ B := h x (by simp)
    have h2 := ih fun y hy => h y (by simp [hy])
    push_cast
    linarith

/-- A list bounded below pointwise has sum at least `length * bound`. -/
theorem length_mul_le_sum (l : List ℚ) (B : ℚ) (h : ∀ x ∈ l, B ≤ x) :
    (l.length : ℚ) * B ≤ l.sum := by
  induction l with
  | nil => simp
  | cons x xs ih =>
    simp only [List.sum_cons, List.length_cons]
    have h1 : B ≤ x := h x (by simp)
    have h2 := ih fun y hy => h y (by simp [hy])
    push_cast
    linarith

/-- The mean of a non-empty list is at most its maximum. -/
theorem mean_le_listMax (l : List ℚ) (h : l ≠ []) : mean l ≤ listMax l := by
  have hlen : (0 : ℚ) < (l.length : ℚ) := by
    exact_mod_cast List.length_pos.mpr h
  rw [mean, div_le_iff₀ hlen]
  calc l.sum ≤ (l.length : ℚ) * listMax l := sum_le_length_mul l (listMax l) (le_listMax l)
    _ = listMax l * (l.length : ℚ) := mul_comm _ _

/-- The mean of a non-empty list is at least its minimum. -/
theorem listMin_le_mean (l : List ℚ) (h : l ≠ []) : listMin l ≤ mean l := by
  have hlen : (0 : ℚ) < (l.length : ℚ) := by
    exact_mod_cast List.length_pos.mpr h
  rw [mean, le_div_iff₀ hlen]
  calc listMin l * (l.length : ℚ) = (l.length : ℚ) * listMin l := mul_comm _ _
    _ ≤ l.sum := length_mul_le_sum l (listMin l) (listMin_le l)

/-- `render_average_chart` on a record with an empty subject raises
`ZeroDivisionError`. -/
theorem render_average_chart_error (r : GradeRecord) (h : ∃ p ∈ r.subjects, p.2 = []) :
    render_average_chart r = .error .zeroDivision := by
  unfold render_average_chart
  rw [chartLoop_error r.subjects h ⟨r, [], []⟩]

example : scores [("t1", 8), ("t2", 10)] = [8, 10] := rfl

example : mean [8, 10] = 9 := by norm_num [mean]

example :
    chartData ⟨"Peter", [("Math", [("t1", 8), ("t2", 10)]), ("Art", [("t1", 4)])]⟩ =
      .ok [("Math", 9), ("Art", 4), ("Samlet gennemsnit", 13 / 2)] := by
  norm_num [chartData, render_average_chart, chartLoop, scores]
  rfl

example : chartData ⟨"Peter", []⟩ = .ok [("Samlet gennemsnit", 0)] := rfl

example : chartData ⟨"Peter", [("Dansk", [])]⟩ = .error .zeroDivision := rfl

/-- C1: for every record with a non-empty subjects mapping in which every
subject has at least one score, the aggregator produces exactly one
`(name, mean of scores)` pair per subject, in the mapping's iteration order,
followed by one synthetic overall pair whose value is the mean of the
per-subject means. -/
theorem claim_C1 (r : GradeRecord) (hne : r.subjects ≠ [])
    (h : ∀ p ∈ r.subjects, p.2 ≠ []) :
    chartData r = .ok
      (r.subjects.map (fun p => (p.1, mean (scores p.2))) ++
        [("Samlet gennemsnit", mean (r.subjects.map fun p => mean (scores p.2)))]) := by
  have hmap : (r.subjects.map fun p => mean (scores p.2)) ≠ [] := by
    simpa using hne
  simp only [chartData, render_average_chart_ok r h]
  simp only [overallValue, if_pos hmap, Except.map]
  rfl

theorem claim_C1_witness :
    chartData ⟨"Peter", [("Math", [("t1", 8), ("t2", 10)])]⟩ =
      .ok [("Math", 9), ("Samlet gennemsnit", 9)] := by
  have h := claim_C1 ⟨"Peter", [("Math", [("t1", 8), ("t2", 10)])]⟩ (by simp) (by simp)
  rw [h]
  norm_num [mean, scores]

/-- C2 counterexample: on a record with zero subjects the aggregator does
not fail with a division error — it returns a result, the single synthetic
bar `("Samlet gennemsnit", 0)`, because the source guards the overall
division with `if averages else 0`. -/
theorem claim_C2_counterexample :
    render_average_chart ⟨"Peter", []⟩ =
      .ok ([("Samlet gennemsnit", 0)], ⟨"Peter", []⟩) := rfl

/-- C2 amended: for every record with zero subjects, the aggregator succeeds
and returns exactly the synthetic overall pair with value `0` (the
`if averages else 0` guard replaces the division by zero). -/
theorem claim_C2 (r : GradeRecord) (h : r.subjects = []) :
    render_average_chart r = .ok ([("Samlet gennemsnit", 0)], r) := by
  obtain ⟨student, subjects⟩ := r
  simp only at h
  subst h
  rfl

theorem claim_C2_witness :
    render_average_chart ⟨"A", []⟩ = .ok ([("Samlet gennemsnit", 0)], ⟨"A", []⟩) :=
  claim_C2 ⟨"A", []⟩ rfl

/-- C3: a record containing a subject with an empty score mapping makes the
aggregator raise the division-by-zero arithmetic error; no label/value
series (in particular no silent `0` bar for that subject) is produced. -/
theorem claim_C3 (r : GradeRecord) (h : ∃ p ∈ r.subjects, p.2 = []) :
    render_average_chart r = .error .zeroDivision :=
  render_average_chart_error r h

theorem claim_C3_witness :
    render_average_chart ⟨"B", [("Dansk", [])]⟩ = .error .zeroDivision :=
  claim_C3 ⟨"B", [("Dansk", [])]⟩ ⟨("Dansk", []), by simp⟩

/-- C4: for every valid record (non-empty subjects, each with at least one
score), the last pair of the aggregator's output is the overall bar, and its
value is the unweighted mean of the per-subject means. -/
theorem claim_C4 (r : GradeRecord) (hne : r.subjects ≠ [])
    (h : ∀ p ∈ r.subjects, p.2 ≠ []) :
    ∃ out, chartData r = .ok out ∧
      out.getLast? = some
        ("Samlet gennemsnit", mean (r.subjects.map fun p => mean (scores p.2))) := by
  have hmap : (r.subjects.map fun p => mean (scores p.2)) ≠ [] := by
    simpa using hne
  refine ⟨r.subjects.map (fun p => (p.1, mean (scores p.2))) ++
      [("Samlet gennemsnit", overallValue (r.subjects.map fun p => mean (scores p.2)))],
      ?_, ?_⟩
  · simp only [chartData, render_average_chart_ok r h, Except.map]
  · rw [List.getLast?_concat]
    simp only [overallValue, if_pos hmap]
    rfl

/-- C4 witness: with Math scoring 8 and 10 and Art scoring 4, the overall
bar is `13/2 = 6.5` — the mean of the means 9 and 4 — and not the flat mean
`22/3` of the three raw scores. -/
theorem claim_C4_witness :
    (∃ out, chartData ⟨"C", [("Math", [("t1", 8), ("t2", 10)]), ("Art", [("t1", 4)])]⟩ =
        .ok out ∧ out.getLast? = some ("Samlet gennemsnit", 13 / 2)) ∧
      (13 / 2 : ℚ) ≠ 22 / 3 := by
  constructor
  · obtain ⟨out, h1, h2⟩ :=
      claim_C4 ⟨"C", [("Math", [("t1", 8), ("t2", 10)]), ("Art", [("t1", 4)])]⟩
        (by simp) (by simp)
    refine ⟨out, h1, ?_⟩
    rw [h2]
    norm_num [mean, scores]
  · norm_num

/-- C5: for every filesystem, parser and path, the loader returns the parsed
value when the file exists and parses; it fails with `fileNotFound` if and
only if the path does not exist, and with `parseError` if and only if the
file exists but its contents do not parse. -/
theorem claim_C5 {α : Type} (fs : String → Option String) (parse : String → Option α)
    (path : String) :
    (∀ contents v, fs path = some contents → parse contents = some v →
        load_grade_data fs parse path = .ok v) ∧
    (load_grade_data fs parse path = .error .fileNotFound ↔ fs path = none) ∧
    (load_grade_data fs parse path = .error .parseError ↔
        ∃ contents, fs path = some contents ∧ parse contents = none) := by
  unfold load_grade_data
  cases hfs : fs path with
  | none => simp
  | some c =>
    cases hp : parse c with
    | none =>
      refine ⟨?_, by simp [hp], by simp [hp]⟩
      intro c2 v2 hc2 hv2
      rw [Option.some.injEq] at hc2
      subst hc2
      rw [hp] at hv2
      simp at hv2
    | some v =>
      refine ⟨?_, by simp [hp], by simp [hp]⟩
      intro c2 v2 hc2 hv2
      rw [Option.some.injEq] at hc2
      subst hc2
      simp [hv2]

theorem claim_C5_witness :
    load_grade_data (fun _ => some "contents") (fun _ => some (7 : ℕ)) "grades.json" =
      .ok 7 :=
  (claim_C5 (fun _ => some "contents") (fun _ => some (7 : ℕ)) "grades.json").1
    "contents" 7 rfl rfl

/-- C6: for every record whose subjects all have at least one score, the
aggregator produces exactly one per-subject average per subject (before the
synthetic overall bar), each pair carries the subject's name, and each
average lies between the minimum and the maximum of that subject's raw
scores. -/
theorem claim_C6 (r : GradeRecord) (h : ∀ p ∈ r.subjects, p.2 ≠ []) :
    ∃ persub overall,
      chartData r = .ok (persub ++ [("Samlet gennemsnit", overall)]) ∧
      persub.length = r.subjects.length ∧
      List.Forall₂ (fun sub pair => pair.1 = sub.1 ∧
          listMin (scores sub.2) ≤ pair.2 ∧ pair.2 ≤ listMax (scores sub.2))
        r.subjects persub := by
  refine ⟨r.subjects.map (fun p => (p.1, mean (scores p.2))),
      overallValue (r.subjects.map fun p => mean (scores p.2)), ?_, ?_, ?_⟩
  · simp only [chartData, render_average_chart_ok r h, Except.map]
  · simp
  · rw [List.forall₂_map_right_iff, List.forall₂_same]
    intro p hp
    have hs : scores p.2 ≠ [] := by
      simpa [scores] using h p hp
    exact ⟨rfl, listMin_le_mean _ hs, mean_le_listMax _ hs⟩

theorem claim_C6_witness :
    ∃ persub overall,
      chartData ⟨"E", [("Math", [("t1", 8), ("t2", 10)])]⟩ =
        .ok (persub ++ [("Samlet gennemsnit", overall)]) ∧
      persub.length = 1 ∧
      List.Forall₂ (fun sub pair => pair.1 = sub.1 ∧
          listMin (scores sub.2) ≤ pair.2 ∧ pair.2 ≤ listMax (scores sub.2))
        [("Math", [("t1", (8 : ℚ)), ("t2", 10)])] persub :=
  claim_C6 ⟨"E", [("Math", [("t1", 8), ("t2", 10)])]⟩ (by simp)

/-- C7: the aggregator does not mutate its input — whenever it returns, the
record threaded through the loop state comes back equal to the record it was
given. -/
theorem claim_C7 (r : GradeRecord) (out : List (String × ℚ)) (r2 : GradeRecord)
    (h : render_average_chart r = .ok (out, r2)) : r2 = r := by
  unfold render_average_chart at h
  cases hcl : chartLoop r.subjects ⟨r, [], []⟩ with
  | error e =>
    rw [hcl] at h
    simp at h
  | ok s =>
    rw [hcl] at h
    simp only [Except.ok.injEq, Prod.mk.injEq] at h
    rw [← h.2]
    exact chartLoop_record _ _ _ hcl

theorem claim_C7_witness :
    (⟨"D", []⟩ : GradeRecord) = ⟨"D", []⟩ :=
  claim_C7 ⟨"D", []⟩ [("Samlet gennemsnit", 0)] ⟨"D", []⟩ rfl

/-- C8: loading is deterministic and leaves the filesystem unchanged, so
loading the same path twice yields structurally equal results and neither
load changes the outcome of the other. -/
theorem claim_C8 {α : Type} (fs : String → Option String) (parse : String → Option α)
    (path : String) :
    (load_grade_data_run fs parse path).1 =
      (load_grade_data_run (load_grade_data_run fs parse path).2 parse path).1 ∧
    (load_grade_data_run (load_grade_data_run fs parse path).2 parse path).2 = fs :=
  ⟨rfl, rfl⟩

/-- C9: the label/value series depends only on the `subjects` field — two
records with equal subjects mappings (and possibly different students)
produce identical series. -/
theorem claim_C9 (r1 r2 : GradeRecord) (h : r1.subjects = r2.subjects) :
    chartData r1 = chartData r2 := by
  by_cases hall : ∀ p ∈ r1.subjects, p.2 ≠ []
  · rw [chartData, chartData, render_average_chart_ok r1 hall,
      render_average_chart_ok r2 (h ▸ hall)]
    simp [h, Except.map]
  · push_neg at hall
    obtain ⟨p, hp, hpe⟩ := hall
    rw [chartData, chartData, render_average_chart_error r1 ⟨p, hp, hpe⟩,
      render_average_chart_error r2 ⟨p, h ▸ hp, hpe⟩]

theorem claim_C9_witness :
    chartData ⟨"Peter Jensen", [("Math", [("t1", 8)])]⟩ =
      chartData ⟨"Someone Else", [("Math", [("t1", 8)])]⟩ :=
  claim_C9 ⟨"Peter Jensen", [("Math", [("t1", 8)])]⟩
    ⟨"Someone Else", [("Math", [("t1", 8)])]⟩ rfl

/-- C10: whenever the aggregator returns (all subjects non-empty), the
synthetic overall bar is present, in the final position, and the output has
exactly one more pair than there are subjects. -/
theorem claim_C10 (r : GradeRecord) (h : ∀ p ∈ r.subjects, p.2 ≠ []) :
    ∃ out, chartData r = .ok out ∧
      out.length = r.subjects.length + 1 ∧
      out.getLast? = some
        ("Samlet gennemsnit", overallValue (r.subjects.map fun p => mean (scores p.2))) := by
  refine ⟨r.subjects.map (fun p => (p.1, mean (scores p.2))) ++
      [("Samlet gennemsnit", overallValue (r.subjects.map fun p => mean (scores p.2)))],
      ?_, ?_, ?_⟩
  · simp only [chartData, render_average_chart_ok r h, Except.map]
  · simp
  · exact List.getLast?_concat _

theorem claim_C10_witness :
    ∃ out, chartData ⟨"F", [("Art", [("t1", 4)])]⟩ = .ok out ∧
      out.length = 2 ∧
      out.getLast? = some
        ("Samlet gennemsnit", overallValue ([("Art", [("t1", (4 : ℚ))])].map
          fun p => mean (scores p.2))) :=
  claim_C10 ⟨"F", [("Art", [("t1", 4)])]⟩ (by simp)

end Dashboard
